import Mathlib

/-!
Verification of the libwss WebSocket framing engine (src/wss.c, src/wss.h)
against its natural-language specification.

The C sources are shallowly embedded: bytes are `Nat` values below 256,
byte streams are `List Nat`, machine-integer conversions (`ntohs`, `ntohl`,
`htons`, `htonl`) are modelled with explicit truncation and byte swapping as
they behave on the little-endian (x86-64 Linux) host the library targets,
and the incremental, staged reads of the parser are collapsed into functions
over the whole input stream (the staging macros `WS_PARSE_NEXT` and
`WS_NEED_BYTES` preserve previously read bytes, so the net effect of driving
`frame_internal_read` until a header is complete is a pure function of the
byte sequence). Uninitialized C memory (fresh `malloc` contents, the
never-zeroed tail of the write preamble) is modelled explicitly: either as
zero bytes where the contents are immediately overwritten, or as an explicit
`resid` parameter where the contents escape to the wire.
-/

namespace Wss

/-! ## Constants from src/wss.h -/

/-- WS_OPCODE_CONTINUE (wss.h line 34). -/
def WS_OPCODE_CONTINUE : Nat := 0x0

/-- WS_OPCODE_TEXT (wss.h line 35). -/
def WS_OPCODE_TEXT : Nat := 0x1

/-- WS_OPCODE_BINARY (wss.h line 36). -/
def WS_OPCODE_BINARY : Nat := 0x2

/-- WS_OPCODE_CLOSE (wss.h line 37). -/
def WS_OPCODE_CLOSE : Nat := 0x8

/-- WS_OPCODE_PING (wss.h line 38). -/
def WS_OPCODE_PING : Nat := 0x9

/-- WS_OPCODE_PONG (wss.h line 39). -/
def WS_OPCODE_PONG : Nat := 0xA

/-- WS_OPCODE_VALID macro, translated verbatim from wss.h line 41:
`(x <= WS_OPCODE_TEXT || (x >= WS_OPCODE_CLOSE && x <= WS_OPCODE_PONG))`. -/
def WS_OPCODE_VALID (x : Nat) : Bool :=
  x ≤ WS_OPCODE_TEXT || (x ≥ WS_OPCODE_CLOSE && x ≤ WS_OPCODE_PONG)

/-- WS_MAX_PAYLOAD_LENGTH, default value (wss.h lines 22-25). -/
def WS_MAX_PAYLOAD_LENGTH : Nat := 25 * 1024 * 1024

/-- WS_CLOSE_NORMAL (wss.h line 44). -/
def WS_CLOSE_NORMAL : Nat := 1000

/-- WS_CLOSE_PROTOCOL_ERROR (wss.h line 46). -/
def WS_CLOSE_PROTOCOL_ERROR : Nat := 1002

/-- WS_CLOSE_LARGE_PAYLOAD (wss.h line 53). -/
def WS_CLOSE_LARGE_PAYLOAD : Nat := 1009

/-- WS_CLOSE_UNEXPECTED (wss.h line 55). -/
def WS_CLOSE_UNEXPECTED : Nat := 1011

/-! ## Byte-order primitives

The library runs on a little-endian host and uses the POSIX byte-order
functions; these model their exact behavior there, including the implicit
truncations performed by the C integer conversions at their call sites. -/

/-- Little-endian load of up to four bytes from memory as a 32-bit value
(missing list entries read as zero, matching zero-initialized buffers). -/
def leLoad32 (b : List Nat) : Nat :=
  b.getD 0 0 + 256 * b.getD 1 0 + 65536 * b.getD 2 0 + 16777216 * b.getD 3 0

/-- Little-endian load of two bytes from memory as a 16-bit value. -/
def leLoad16 (b : List Nat) : Nat :=
  b.getD 0 0 + 256 * b.getD 1 0

/-- 16-bit byte swap. -/
def bswap16 (v : Nat) : Nat :=
  (v % 256) * 256 + (v / 256) % 256

/-- 32-bit byte swap. -/
def bswap32 (v : Nat) : Nat :=
  (v % 256) * 16777216 + (v / 256 % 256) * 65536 + (v / 65536 % 256) * 256 + v / 16777216 % 256

/-- ntohs on a little-endian host: truncate the argument to 16 bits
(the C conversion to uint16_t) and byte-swap. -/
def ntohs (v : Nat) : Nat := bswap16 (v % 65536)

/-- ntohl on a little-endian host: truncate to 32 bits and byte-swap. -/
def ntohl (v : Nat) : Nat := bswap32 (v % 4294967296)

/-- htons on a little-endian host (identical to ntohs). -/
def htons (v : Nat) : Nat := bswap16 (v % 65536)

/-- htonl on a little-endian host (identical to ntohl). -/
def htonl (v : Nat) : Nat := bswap32 (v % 4294967296)

/-- The two memory bytes of a 16-bit value stored on a little-endian host. -/
def leBytes16 (v : Nat) : List Nat := [v % 256, v / 256 % 256]

/-- The four memory bytes of a 32-bit value stored on a little-endian host. -/
def leBytes32 (v : Nat) : List Nat :=
  [v % 256, v / 256 % 256, v / 65536 % 256, v / 16777216 % 256]

/-- Specification-side helper: the `n` big-endian bytes of a value
(most significant byte first), as the wire format prescribes. -/
def beBytes : Nat → Nat → List Nat
  | 0, _ => []
  | n + 1, v => beBytes n (v / 256) ++ [v % 256]

/-- Specification-side helper: interpret a byte list as a big-endian value. -/
def beToNat (l : List Nat) : Nat :=
  l.foldl (fun a b => a * 256 + b) 0

/-! ## Frame and client state (struct wss_frame, struct wss_client) -/

/-- The caller-visible fields of `struct wss_frame` (wss.c lines 66-81).
`data = none` models a NULL `data` pointer. The private staging fields
(`buf`, `state`, `maxread`, `datapos`) live inside the parser functions. -/
structure WssFrame where
  fin : Bool
  opcode : Nat
  length : Nat
  key : List Nat
  data : Option (List Nat)
deriving Repr, DecidableEq

/-- `struct wss_client` (wss.c lines 83-89), restricted to the fields the
framing logic touches (the descriptors become the explicit byte streams). -/
structure WssClient where
  frame : WssFrame
  closecode : Nat
deriving Repr, DecidableEq

/-- frame_init (wss.c lines 154-160): memset of the frame struct. -/
def frame_init : WssFrame :=
  { fin := false, opcode := 0, length := 0, key := [], data := none }

/-! ## Header parsing (frame_internal_read, wss.c lines 208-289)

`frame_internal_read` consumes one `read` chunk per call and stages bytes in
`frame->buf` until the current state has enough; `wss_read` keeps invoking it
until the state machine reaches `WS_PARSE_PAYLOAD`. Run to completion over an
input stream this is the pure function below. Outcomes mirror the C returns:
a completed header (state `WS_PARSE_PAYLOAD` reached) with the unconsumed
input, or an early return value paired with the close code it stores in
`client->closecode` (0 when the C leaves the close code untouched), or an
exhausted input (the blocking-read path). -/
inductive HeaderResult where
  | ok (hdr : WssFrame) (rest : List Nat)
  | fail (retval : Int) (closecode : Nat)
  | incomplete
deriving Repr, DecidableEq

/-- The WS_PARSE_MASK state (wss.c lines 278-283): stage 4 bytes and copy
them into `frame->key`; the header is then complete. -/
def parse_mask (fin : Bool) (opcode : Nat) (length : Nat) : List Nat → HeaderResult
  | k0 :: k1 :: k2 :: k3 :: rest =>
      .ok { fin := fin, opcode := opcode, length := length,
            key := [k0, k1, k2, k3], data := none } rest
  | _ => .incomplete

/-- States WS_PARSE_INITIAL through WS_PARSE_MASK of frame_internal_read
(wss.c lines 224-287), driven to completion over the input stream.

In the XLENGTH state the C computes `ntohs(*((unsigned int *) frame->buf))`
with 2 staged bytes: the little-endian 4-byte load picks up `buf[2]`,`buf[3]`,
which are still zero from `frame_init` (no earlier state stages more than two
bytes), and the conversion to uint16_t discards them again. In the XLENGTH2
state the C computes `ntohl(*((unsigned int *) frame->buf))` with 8 staged
bytes: only `buf[0..3]` reach the 32-bit load; all 8 staged bytes are
consumed from the stream. Bit tests translate the BIT0..BIT3 masks
(0x80, 0x40, 0x20, 0x10). -/
def parse_header : List Nat → HeaderResult
  | [] => .incomplete
  | b0 :: r1 =>
    let fin := b0 &&& 0x80 == 0x80
    let rsv1 := b0 &&& 0x40 == 0x40
    let rsv2 := b0 &&& 0x20 == 0x20
    let rsv3 := b0 &&& 0x10 == 0x10
    if rsv1 || rsv2 || rsv3 then
      .fail 1 WS_CLOSE_PROTOCOL_ERROR
    else
      let opcode := b0 &&& 0x0f
      if !WS_OPCODE_VALID opcode then
        .fail (-1) WS_CLOSE_PROTOCOL_ERROR
      else
        match r1 with
        | [] => .incomplete
        | b1 :: r2 =>
          let masked := b1 &&& 0x80 == 0x80
          if !masked then
            .fail (-1) WS_CLOSE_PROTOCOL_ERROR
          else
            let len7 := b1 &&& 0x7f
            if len7 == 127 then
              match r2 with
              | x0 :: x1 :: x2 :: x3 :: _x4 :: _x5 :: _x6 :: _x7 :: r3 =>
                let length := ntohl (leLoad32 [x0, x1, x2, x3])
                if length > 2 ^ 63 - 1 then
                  .fail (-1) 0
                else
                  parse_mask fin opcode length r3
              | _ => .incomplete
            else if len7 == 126 then
              match r2 with
              | x0 :: x1 :: r3 =>
                let length := ntohs (leLoad32 [x0, x1, 0, 0])
                parse_mask fin opcode length r3
              | _ => .incomplete
            else
              parse_mask fin opcode len7 r2

/-! ## Payload reading (read_payload, wss.c lines 291-332) -/

/-- The unmasking read loop (wss.c lines 315-330): the loop always advances
`already` by the bytes just read and XORs byte `i` of the frame with
`key[i % 4]`, so across however many reads it takes, the net effect on a
fully delivered payload is this map. -/
def unmask (key : List Nat) (raw : List Nat) : List Nat :=
  raw.enum.map fun p => p.2 ^^^ key.getD (p.1 % 4) 0

/-- read_payload (wss.c lines 291-332). `temp` is `some f` when `frame`
is the local continuation frame `frame2` of wss_read, and `none` when
`frame` aliases `client->frame` (the first physical frame); the aliasing is
reproduced explicitly. Returns the C return value, the updated client, the
updated temp frame, and the unconsumed input.

Modelling notes, keyed to the source:
* the realloc for a CONTINUATION frame grows the logical buffer
  copy-preserving; the grown region is uninitialized (modelled as zeroes)
  until the read loop overwrites its first `length` bytes;
* `malloc`/`realloc` are assumed to succeed (allocation failure is an
  environment condition outside the byte-level model);
* the terminator store `client->frame.data[client->frame.length] = 0` writes
  the extra byte beyond the payload, which is never part of the payload and
  is not represented in the byte lists;
* the check `if (!frame->data)` reads the `data` pointer of `frame` itself:
  for the temp continuation frame that pointer was never assigned and is
  still NULL from frame_init;
* a read_payload call that cannot obtain its `length` bytes from the stream
  models the `res <= 0` branch (wss.c line 319): return -1 with close code
  WS_CLOSE_PROTOCOL_ERROR. -/
def read_payload (client : WssClient) (temp : Option WssFrame) (input : List Nat) :
    Int × WssClient × Option WssFrame × List Nat :=
  let frame := temp.getD client.frame
  let length := frame.length
  if frame.opcode == WS_OPCODE_CONTINUE then
    let grown := client.frame.data.getD [] ++ List.replicate length 0
    let client := { client with frame := { client.frame with
        data := some grown, length := client.frame.length + length } }
    let framedata := if temp.isSome then frame.data else client.frame.data
    match framedata with
    | none => (-1, { client with closecode := WS_CLOSE_UNEXPECTED }, temp, input)
    | some dest =>
      if input.length < length then
        (-1, { client with closecode := WS_CLOSE_PROTOCOL_ERROR }, temp, input.drop length)
      else
        let payload := unmask frame.key (input.take length)
        let newdata := payload ++ dest.drop length
        if temp.isSome then
          (0, client, some { frame with data := some newdata }, input.drop length)
        else
          (0, { client with frame := { client.frame with data := some newdata } },
            temp, input.drop length)
  else
    if input.length < length then
      (-1, { client with closecode := WS_CLOSE_PROTOCOL_ERROR }, temp, input.drop length)
    else
      let payload := unmask frame.key (input.take length)
      if temp.isSome then
        (0, client, some { frame with data := some payload }, input.drop length)
      else
        (0, { client with frame := { client.frame with data := some payload } },
          temp, input.drop length)

/-! ## The read loop (wss_read, wss.c lines 334-396) -/

/-- The `for (;;)` loop of wss_read (wss.c lines 348-394), on the path where
poll reports the descriptor ready whenever input bytes remain. `temp` is
`none` while parsing into `client->frame` (the first physical frame) and
`some frame2` afterwards. `full_length` accumulates the declared lengths of
the fragments of the logical message. The fuel only bounds the recursion;
`wss_read` supplies more fuel than fragments can exist, since every parsed
header consumes at least six input bytes. On fuel exhaustion, and when the
input ends mid-frame, the result models the poll-timeout path (retval from
poll, close code WS_CLOSE_PROTOCOL_ERROR when a frame was in progress). -/
def wss_read_loop : Nat → WssClient → Option WssFrame → Nat → List Nat →
    Int × WssClient × List Nat
  | 0, client, _, _, input => (0, client, input)
  | fuel + 1, client, temp, full_length, input =>
    match parse_header input with
    | .incomplete =>
        if input.isEmpty then (0, client, input)
        else (0, { client with closecode := WS_CLOSE_PROTOCOL_ERROR }, input)
    | .fail rv cc =>
        (rv, if cc == 0 then client else { client with closecode := cc }, input)
    | .ok hdr rest =>
        let client :=
          if temp.isNone then
            { client with frame := { client.frame with
                fin := hdr.fin, opcode := hdr.opcode,
                length := hdr.length, key := hdr.key } }
          else client
        let temp := temp.map fun _ => hdr
        let full_length := full_length + hdr.length
        if full_length > WS_MAX_PAYLOAD_LENGTH then
          (-1, { client with closecode := WS_CLOSE_LARGE_PAYLOAD }, rest)
        else
          let step :=
            if hdr.length != 0 then read_payload client temp rest
            else (0, client, temp, rest)
          match step with
          | (res, client, _, rest) =>
            if res < 0 then
              (-1, { client with closecode := WS_CLOSE_PROTOCOL_ERROR }, rest)
            else if !hdr.fin &&
                (hdr.opcode == WS_OPCODE_TEXT || hdr.opcode == WS_OPCODE_BINARY) then
              wss_read_loop fuel client (some frame_init) full_length rest
            else
              (1, client, rest)

/-- wss_read (wss.c lines 334-396): frame_init on the client frame, then the
loop. The returned triple is the C return value, the final client state, and
the unconsumed input bytes. -/
def wss_read (client : WssClient) (input : List Nat) : Int × WssClient × List Nat :=
  wss_read_loop (input.length + 1) { client with frame := frame_init } none 0 input

/-! ## Writing (full_write and wss_frame_write, wss.c lines 418-476) -/

/-- full_write (wss.c lines 418-427):
`while (len > 0) { res = write(fd, buf, len); if (res > 0) len -= res; }`.
The buffer pointer is never advanced, so each write call hands the channel
the start of `buf` again. `results` gives the value each successive write
call returns (capped at `len`, as a channel cannot accept more than it was
offered; 0 stands for the failure returns `res <= 0`). The result is the
concatenation of everything the channel accepted, in order, paired with the
remaining `len` when the oracle runs out: 0 means the loop exited, anything
else means the C loop is still spinning after that many calls. -/
def full_write (buf : List Nat) : Nat → List Nat → List Nat × Nat
  | 0, _ => ([], 0)
  | len, [] => ([], len)
  | len, r :: rs =>
    let res := min r len
    let sent := buf.take res
    let len2 := if res > 0 then len - res else len
    let out := full_write buf len2 rs
    (sent ++ out.1, out.2)

/-- wss_frame_write (wss.c lines 429-468). Returns `none` when the opcode is
rejected (C returns -1 before any byte is sent), otherwise the bytes handed
to full_write — header first, then the payload when non-null — which reach
the wire verbatim whenever each write call accepts its whole buffer.

`resid` models `preamble[6..9]`: the C zeroes only the first two preamble
bytes, and in the 64-bit length branch it stores `htonl(len)` into
`preamble[2..5]` yet sends 10 preamble bytes, so four uninitialized stack
bytes follow the 32-bit stored length on the wire. -/
def wss_frame_write (opcode : Nat) (payload : Option (List Nat)) (len : Nat)
    (fin : Bool) (resid : List Nat) : Option (List Nat) :=
  if !WS_OPCODE_VALID opcode then none
  else
    let b0 := (if fin then 0x80 else 0) ||| (opcode &&& 0xff)
    let payload_len := if len > 0xffff then 127 else if len > 125 then 126 else len
    let b1 := payload_len &&& 0x7f
    let ext :=
      if payload_len == 126 then leBytes16 (htons len)
      else if payload_len == 127 then leBytes32 (htonl len) ++ resid.take 4
      else []
    some ([b0, b1] ++ ext ++ (payload.getD []).take len)

/-- wss_write (wss.c lines 470-476): a single frame with fin = 1. -/
def wss_write (opcode : Nat) (payload : Option (List Nat)) (len : Nat)
    (resid : List Nat) : Option (List Nat) :=
  wss_frame_write opcode payload len true resid

/-! ## Close codec (wss_close and wss_close_code, wss.c lines 483-512) -/

/-- wss_close (wss.c lines 483-494). The guard is translated verbatim:
`if (code < 1000 && code > 1011 && code != 1015)` — a conjunction. `none`
models the -1 rejection (no bytes sent); otherwise the result is the bytes
wss_write emits for a CLOSE frame whose 2-byte payload is the buffer that
`*status = htons(code)` filled (the C int is converted to uint16_t). -/
def wss_close (code : Int) (resid : List Nat) : Option (List Nat) :=
  if code < 1000 ∧ code > 1011 ∧ code ≠ 1015 then none
  else
    let status := htons (code % 65536).toNat
    wss_write WS_OPCODE_CLOSE (some (leBytes16 status)) 2 resid

/-- wss_close_code (wss.c lines 496-512): -1 unless the frame is a CLOSE
frame; 1005 when the payload length field is below 2; otherwise
`ntohs(*(unsigned short int *) data)` — a 2-byte little-endian load of the
first two payload bytes, byte-swapped. -/
def wss_close_code (frame : WssFrame) : Int :=
  if frame.opcode ≠ WS_OPCODE_CLOSE then -1
  else if frame.length < 2 then 1005
  else
    let d := frame.data.getD []
    Int.ofNat (ntohs (leLoad16 [d.getD 0 0, d.getD 1 0]))

/-- The 13-byte example payload used by the spec round-trip scenario
(left brace, the words hello there, right brace). -/
def spec_example_payload : List Nat :=
  [123, 104, 101, 108, 108, 111, 32, 116, 104, 101, 114, 101, 125]

/-! ## Theorems -/

/-- C1: the claim says wss_close rejects every code outside 1000..1011 and
1015 and sends nothing for it. The guard at wss.c line 487 is a conjunction
(`code < 1000 && code > 1011 && code != 1015`) that no integer satisfies, so
no code is ever rejected: 999 and 1012 are both accepted and their close
frames are sent (with big-endian payloads 0x03 0xE7 and 0x03 0xF4). The
accepted-code half of the claim does hold: code 1000 yields a CLOSE frame
with payload bytes 0x03 0xE8. -/
theorem wss_close_accepts_invalid_codes :
    wss_close 999 [] = some [0x88, 2, 0x03, 0xE7] ∧
    wss_close 1012 [] = some [0x88, 2, 0x03, 0xF4] ∧
    wss_close 1000 [] = some [0x88, 2, 0x03, 0xE8] := by
  decide

/-- C2: the claim says the set of valid opcodes is exactly the six values
0x0, 0x1, 0x2, 0x8, 0x9, 0xA, and in particular that BINARY (0x2) passes the
parser and the writer. The WS_OPCODE_VALID macro (wss.h line 41) compares
against WS_OPCODE_TEXT instead of WS_OPCODE_BINARY, so it accepts exactly
the five values 0x0, 0x1, 0x8, 0x9, 0xA: a received BINARY frame is rejected
with close code 1002 and the writer refuses a BINARY frame. -/
theorem binary_opcode_rejected :
    WS_OPCODE_VALID WS_OPCODE_BINARY = false ∧
    (List.range 16).filter (fun x => WS_OPCODE_VALID x) = [0x0, 0x1, 0x8, 0x9, 0xA] ∧
    parse_header [0x82] = .fail (-1) WS_CLOSE_PROTOCOL_ERROR ∧
    wss_frame_write WS_OPCODE_BINARY (some [1]) 1 true [] = none := by
  decide

/-- C3: the claim says a message delivered as TEXT(fin=0) followed by
CONTINUATION(fin=1) is reassembled and returned with the concatenated
payload. On the concrete two-fragment message TEXT byte 0x41 then
CONTINUATION byte 0x42 (both masked with key 0 0 0 0), wss_read instead
returns -1 with close code 1002: read_payload checks the `data` pointer of
the temporary continuation frame (wss.c line 310), which frame_init left
NULL, so every continuation fragment with a nonzero length aborts. The
logical buffer keeps only the first fragment (plus the uninitialized grown
byte) and the second fragment byte 0x42 is never consumed. -/
theorem continuation_read_fails :
    wss_read ⟨frame_init, 0⟩
        [0x01, 0x81, 0, 0, 0, 0, 0x41, 0x80, 0x81, 0, 0, 0, 0, 0x42] =
      (-1, ⟨⟨false, WS_OPCODE_TEXT, 2, [0, 0, 0, 0], some [0x41, 0]⟩,
        WS_CLOSE_PROTOCOL_ERROR⟩, [0x42]) := by
  decide

/-- C4: the claim says both extended-length fields decode as big-endian
values of their full width. The 16-bit field does (first conjunct: wire
bytes 0xAB 0xCD decode to 0xABCD = 43981). The 64-bit field does not:
wss.c line 271 decodes it with `ntohl(*((unsigned int *) frame->buf))`,
a 32-bit conversion of the first 4 of the 8 staged bytes, so the frame whose
8 extended-length bytes are the big-endian encoding of 65536 parses to
length 0 instead of 65536. -/
theorem xlength2_loses_precision :
    parse_header [0x81, 0xFE, 0xAB, 0xCD, 1, 2, 3, 4] =
      .ok ⟨true, WS_OPCODE_TEXT, 0xABCD, [1, 2, 3, 4], none⟩ [] ∧
    beToNat [0, 0, 0, 0, 0, 1, 0, 0] = 65536 ∧
    parse_header [0x81, 0xFF, 0, 0, 0, 0, 0, 1, 0, 0, 9, 9, 9, 9] =
      .ok ⟨true, WS_OPCODE_TEXT, 0, [9, 9, 9, 9], none⟩ [] ∧
    (0 : Nat) ≠ 65536 := by
  decide

/-- C5: the claim says a write of length L > 65535 emits length field 127
followed by the 8 big-endian bytes of L. Lengths 0, 125, 126, 127 and 65535
do select the claimed encodings (first five conjuncts). For L = 65536 the
code stores only `htonl(len)` — the 4 big-endian bytes of L — into the
8-byte field (wss.c lines 457-460) and sends 4 uninitialized stack bytes
after them (modelled here as zeroes via `resid`): the emitted field begins
0x00 0x01 0x00 0x00, which is not a prefix of the big-endian 8-byte encoding
0x00 0x00 0x00 0x00 0x00 0x01 0x00 0x00 of 65536, so no value of the
uninitialized bytes can make the header correct. -/
theorem xlength64_write_wrong_bytes :
    wss_frame_write WS_OPCODE_TEXT none 0 true [] = some [0x81, 0] ∧
    wss_frame_write WS_OPCODE_TEXT none 125 true [] = some [0x81, 125] ∧
    wss_frame_write WS_OPCODE_TEXT none 126 true [] = some [0x81, 126, 0, 126] ∧
    wss_frame_write WS_OPCODE_TEXT none 127 true [] = some [0x81, 126, 0, 127] ∧
    wss_frame_write WS_OPCODE_TEXT none 65535 true [] = some [0x81, 126, 255, 255] ∧
    wss_frame_write WS_OPCODE_TEXT none 65536 true [0, 0, 0, 0] =
      some [0x81, 127, 0, 1, 0, 0, 0, 0, 0, 0] ∧
    beBytes 8 65536 = [0, 0, 0, 0, 0, 1, 0, 0] ∧
    [(0 : Nat), 1, 0, 0] ≠ [0, 0, 0, 0] := by
  decide

/-- C6: the claim says writing a TEXT frame with the 13-byte spec payload on
one end and reading it on the other yields the same frame back. The writer
emits the frame with the mask bit clear and no masking key (first conjunct),
but wss_read rejects every unmasked frame (wss.c lines 244-249), so reading
the written bytes returns -1 with close code 1002 and delivers no payload —
the round trip asserted by the spec (and by the assertions of src/test.c)
fails for any payload. -/
theorem round_trip_fails_mask :
    wss_frame_write WS_OPCODE_TEXT (some spec_example_payload) 13 true [] =
      some ([0x81, 13] ++ spec_example_payload) ∧
    wss_read ⟨frame_init, 0⟩ ([0x81, 13] ++ spec_example_payload) =
      (-1, ⟨frame_init, WS_CLOSE_PROTOCOL_ERROR⟩, [0x81, 13] ++ spec_example_payload) := by
  decide

/-- C7: the claim says a frame with a nonzero RSV bit makes wss_read return
a failure result. The close code is indeed set to 1002 and no payload is
delivered, but frame_internal_read returns 1 for the RSV violation (wss.c
line 233) — unlike every other validation failure, which returns -1 — and
wss_read passes that value through: it returns 1, the value wss.h line 88
documents as frame(s) successfully received and parsed. Concretely, a frame
whose first byte 0x41 has RSV1 set yields return value 1, not -1. -/
theorem rsv_returns_success_code :
    wss_read ⟨frame_init, 0⟩ [0x41, 0x81, 0, 0, 0, 0, 0x42] =
      (1, ⟨frame_init, WS_CLOSE_PROTOCOL_ERROR⟩, [0x41, 0x81, 0, 0, 0, 0, 0x42]) ∧
    (1 : Int) ≠ -1 := by
  decide

/-- C8: whenever a parsed fragment header pushes the cumulative declared
length of the logical message over WS_MAX_PAYLOAD_LENGTH (default 25 MiB),
the read loop returns -1 with close code WS_CLOSE_LARGE_PAYLOAD before
consuming any of that fragment's payload bytes: the unconsumed input is
exactly what followed the fragment header (wss.c lines 370-375). -/
theorem wss_read_enforces_payload_ceiling (fuel full : Nat) (client : WssClient)
    (temp : Option WssFrame) (input rest : List Nat) (hdr : WssFrame)
    (hok : parse_header input = .ok hdr rest)
    (hbig : full + hdr.length > WS_MAX_PAYLOAD_LENGTH) :
    WS_MAX_PAYLOAD_LENGTH = 25 * 1024 * 1024 ∧
    ∃ c, wss_read_loop (fuel + 1) client temp full input = (-1, c, rest) ∧
      c.closecode = WS_CLOSE_LARGE_PAYLOAD := by
  refine ⟨rfl, ?_⟩
  simp only [wss_read_loop, hok]
  rw [if_pos hbig]
  exact ⟨_, rfl, rfl⟩

/-- Witness for C8: a single masked TEXT frame declaring length 26214401
(one byte over the 25 MiB ceiling) via the 64-bit extended-length field is
rejected with -1 and close code 1009, with nothing consumed past its
header. -/
theorem wss_read_ceiling_witness :
    WS_MAX_PAYLOAD_LENGTH = 25 * 1024 * 1024 ∧
    ∃ c, wss_read_loop 1 ⟨frame_init, 0⟩ none 0
        [0x81, 0xFF, 1, 144, 0, 1, 0, 0, 0, 0, 5, 6, 7, 8] = (-1, c, []) ∧
      c.closecode = WS_CLOSE_LARGE_PAYLOAD :=
  wss_read_enforces_payload_ceiling 0 0 ⟨frame_init, 0⟩ none
    [0x81, 0xFF, 1, 144, 0, 1, 0, 0, 0, 0, 5, 6, 7, 8] []
    ⟨true, WS_OPCODE_TEXT, 26214401, [5, 6, 7, 8], none⟩ (by decide) (by decide)

/-- C9: wss_close_code returns -1 on a non-CLOSE frame; 1005 when the CLOSE
payload length is below 2; and otherwise the first two payload bytes read as
a big-endian 16-bit value, independent of any further payload bytes. -/
theorem wss_close_code_correct (fr : WssFrame) (b0 b1 : Nat) (rest : List Nat)
    (hb0 : b0 < 256) (hb1 : b1 < 256) :
    (fr.opcode ≠ WS_OPCODE_CLOSE → wss_close_code fr = -1) ∧
    (fr.opcode = WS_OPCODE_CLOSE → fr.length < 2 → wss_close_code fr = 1005) ∧
    (fr.opcode = WS_OPCODE_CLOSE → 2 ≤ fr.length → fr.data = some (b0 :: b1 :: rest) →
      wss_close_code fr = Int.ofNat (256 * b0 + b1)) := by
  refine ⟨?_, ?_, ?_⟩
  · intro hne
    simp only [wss_close_code, if_pos hne]
  · intro heq hlt
    simp only [wss_close_code, heq]
    simp [hlt]
  · intro heq hge hdata
    simp only [wss_close_code, heq, hdata]
    have : ¬ fr.length < 2 := by omega
    simp only [ne_eq, not_true_eq_false, if_false, if_neg this]
    simp only [Option.getD_some, List.getD]
    congr 1
    simp only [ntohs, leLoad16, bswap16, List.getD, List.get?, Option.getD_some]
    omega

/-- Witness for C9: a CLOSE frame with payload bytes 0x03 0xE8 decodes to
1000 (with a trailing reason byte ignored), a TEXT frame decodes to -1, and
a CLOSE frame with a 1-byte payload decodes to 1005. -/
theorem wss_close_code_witness :
    wss_close_code ⟨true, WS_OPCODE_CLOSE, 3, [], some [0x03, 0xE8, 0x21]⟩ = 1000 ∧
    wss_close_code ⟨true, WS_OPCODE_TEXT, 2, [], some [0x03, 0xE8]⟩ = -1 ∧
    wss_close_code ⟨true, WS_OPCODE_CLOSE, 1, [], some [0x03]⟩ = 1005 := by
  refine ⟨?_, ?_, ?_⟩
  · have h := (wss_close_code_correct ⟨true, WS_OPCODE_CLOSE, 3, [], some [0x03, 0xE8, 0x21]⟩
      0x03 0xE8 [0x21] (by decide) (by decide)).2.2 rfl (by decide) rfl
    rw [h]; decide
  · exact (wss_close_code_correct ⟨true, WS_OPCODE_TEXT, 2, [], some [0x03, 0xE8]⟩
      0x03 0xE8 [] (by decide) (by decide)).1 (by decide)
  · exact (wss_close_code_correct ⟨true, WS_OPCODE_CLOSE, 1, [], some [0x03]⟩
      0x03 0xE8 [] (by decide) (by decide)).2.1 rfl (by decide)

/-- C10: the claim says full_write sends every byte of the buffer exactly
once, resuming after a short write from the position reached, and terminates
on a hard channel failure. The loop (wss.c lines 418-427) never advances the
buffer pointer: on the 2-byte buffer 10 20 with the channel accepting one
byte per call, the wire receives 10 10 — the first byte twice and the second
never — although the loop exits believing it drained the buffer. And when
the channel reports hard failure (res <= 0), len is never decremented, so
the loop spins forever: after three failing calls the remaining length is
still 2. -/
theorem full_write_resends_from_start :
    full_write [10, 20] 2 [1, 1] = ([10, 10], 0) ∧
    [(10 : Nat), 10] ≠ [10, 20] ∧
    full_write [10, 20] 2 [0, 0, 0] = ([], 2) := by
  decide

end Wss
